import Mathlib

/-!
Shallow embedding of the scheduled, rate-limit-aware dispatch engine of the
`tg_bot` repository: `src/utils/scheduler.js` (class `Scheduler`) and
`src/utils/messenger.js` (class `Messenger`).  JavaScript strings that the
code inspects character by character (time-of-day inputs, error messages)
are modelled as `List Char`; produced cron expressions and error messages
are Lean `String`s.  Mutable instance state (`this.scheduledTasks`) is
modelled by explicit state passing; a method that can `throw` returns the
post-call state together with an `Except`.
-/

deriving instance DecidableEq for Except

namespace TgBot

/-! ## Scheduler data model (`src/utils/scheduler.js`) -/

/-- A live trigger registered with the timer facility; in the source this is
the object returned by `cron.schedule`, remembered here by the cron
expression it was registered with. -/
structure ActiveTrigger where
  cronExpression : String
  deriving DecidableEq, Repr

/-- The mutable state of a `Scheduler` instance: `this.scheduledTasks`. -/
structure SchedulerState where
  scheduledTasks : List ActiveTrigger
  deriving DecidableEq, Repr

/-- Models `cron.validate` of the external `node-cron` dependency (not part
of this repository): treated as accepting every expression, which is in
particular true of every expression produced by `intervalToCron` and
`dailyTimeToCron`. -/
def cronValidate (_cronExpression : String) : Bool := true

/-- `Scheduler.scheduleTask`: validates the cron expression, registers the
trigger and appends it to `this.scheduledTasks`.  On a failed validation the
error is rethrown and the state is unchanged (the `push` happens only after
`cron.schedule` succeeds). -/
def scheduleTask (s : SchedulerState) (cronExpression : String) :
    SchedulerState × Except String ActiveTrigger :=
  if cronValidate cronExpression then
    let t : ActiveTrigger := ⟨cronExpression⟩
    (⟨s.scheduledTasks ++ [t]⟩, .ok t)
  else
    (s, .error ("Invalid cron expression: " ++ cronExpression))

/-- `Scheduler.intervalToCron`: converts an interval value and unit into a
cron expression, throwing on out-of-range values or unknown units. -/
def intervalToCron (value : Int) (unit : String) : Except String String :=
  if unit = "minutes" then
    if value < 1 ∨ value > 59 then
      .error "Invalid minute interval. Must be between 1 and 59."
    else
      .ok ("*/" ++ toString value ++ " * * * *")
  else if unit = "hours" then
    if value < 1 ∨ value > 23 then
      .error "Invalid hour interval. Must be between 1 and 23."
    else
      .ok ("0 */" ++ toString value ++ " * * *")
  else if unit = "days" then
    if value < 1 ∨ value > 30 then
      .error "Invalid day interval. Must be between 1 and 30."
    else
      .ok ("0 0 */" ++ toString value ++ " * *")
  else
    .error ("Unsupported interval unit: " ++ unit)

/-- The regex `^([01]?[0-9]|2[0-3]):([0-5][0-9])$` of `dailyTimeToCron`,
decided on the character list of the tested string: the hour is one digit,
or two digits starting `0`/`1`, or `2` followed by `0`–`3`; the minute is
exactly two digits, the first `0`–`5`. -/
def matchesTimeRegex : List Char → Bool
  | [h1, ':', m1, m2] =>
      h1.isDigit && (decide ('0' ≤ m1) && decide (m1 ≤ '5')) && m2.isDigit
  | [h1, h2, ':', m1, m2] =>
      (((h1 == '0' || h1 == '1') && h2.isDigit) ||
        (h1 == '2' && (decide ('0' ≤ h2) && decide (h2 ≤ '3')))) &&
      (decide ('0' ≤ m1) && decide (m1 ≤ '5')) && m2.isDigit
  | _ => false

/-- `time.split(':')` on the character list of the string. -/
def splitOnColon : List Char → List (List Char)
  | [] => [[]]
  | c :: rest =>
    let ps := splitOnColon rest
    if c = ':' then [] :: ps
    else
      match ps with
      | [] => [[c]]
      | p :: ps' => (c :: p) :: ps'

/-- JavaScript `Number(...)` on the decimal-digit strings that pass the time
regex. -/
def charsToNat (cs : List Char) : Nat :=
  cs.foldl (fun a c => a * 10 + (c.toNat - '0'.toNat)) 0

/-- `Scheduler.dailyTimeToCron`: validates a time-of-day string against the
regex, splits it on `:`, converts the parts with `Number`, and renders the
cron expression `<minutes> <hours> * * *`. -/
def dailyTimeToCron (time : List Char) : Except String String :=
  if matchesTimeRegex time then
    let parts := (splitOnColon time).map charsToNat
    let hours := parts.getD 0 0
    let minutes := parts.getD 1 0
    .ok (toString minutes ++ " " ++ toString hours ++ " * * *")
  else
    .error "Invalid time format. Must be in 24-hour format (HH:MM)."

/-- The `for (const time of times)` loop body of
`Scheduler.scheduleMultipleDailyTimes`: each time is converted (throwing on
an invalid time) and immediately scheduled; an error thrown mid-loop
propagates while the triggers already pushed onto `this.scheduledTasks`
remain. -/
def scheduleDailyTimesLoop (s : SchedulerState) :
    List (List Char) → SchedulerState × Except String (List ActiveTrigger)
  | [] => (s, .ok [])
  | time :: rest =>
    match dailyTimeToCron time with
    | .error e => (s, .error e)
    | .ok cronExpression =>
      match scheduleTask s cronExpression with
      | (s', .error e) => (s', .error e)
      | (s', .ok trig) =>
        match scheduleDailyTimesLoop s' rest with
        | (s'', .ok trigs) => (s'', .ok (trig :: trigs))
        | (s'', .error e) => (s'', .error e)

/-- `Scheduler.scheduleMultipleDailyTimes`: rejects an empty list, then runs
the scheduling loop. -/
def scheduleMultipleDailyTimes (s : SchedulerState) (times : List (List Char)) :
    SchedulerState × Except String (List ActiveTrigger) :=
  if times = [] then
    (s, .error "Times must be a non-empty array of time strings")
  else
    scheduleDailyTimesLoop s times

/-- One fire of the callback that `scheduleTask` registers with
`cron.schedule`: the supplied task runs inside `try/catch`; an error is
logged (returned as the `Option String` component) and swallowed, and the
scheduler state is untouched. -/
def fireTrigger (s : SchedulerState) (task : Unit → Except String Unit) :
    SchedulerState × Option String :=
  match task () with
  | .ok _ => (s, none)
  | .error e => (s, some ("Error in scheduled task: " ++ e))

/-- `Scheduler.stopAllTasks`: calls `.stop()` on every owned trigger (the
first component lists them, in order) and resets `this.scheduledTasks` to
`[]`. -/
def stopAllTasks (s : SchedulerState) : List ActiveTrigger × SchedulerState :=
  (s.scheduledTasks, ⟨[]⟩)

/-! ## Messenger (`src/utils/messenger.js`) -/

/-- A dispatch target: a JavaScript object whose `type`, `id` and `username`
properties may each be absent.  JavaScript truthiness of the present values
is decided by `truthyId` / `truthyUsername` below. -/
structure Target where
  type : Option String
  id : Option Int
  username : Option String
  deriving DecidableEq, Repr

/-- Truthiness of `target.id`: present and non-zero. -/
def truthyId : Option Int → Bool
  | none => false
  | some n => n != 0

/-- Truthiness of `target.username`: present and non-empty. -/
def truthyUsername : Option String → Bool
  | none => false
  | some u => u != ""

/-- The entity handed to `client.sendMessage`: either a numeric chat id or a
username string. -/
inductive Entity where
  | chatId : Int → Entity
  | uname : String → Entity
  deriving DecidableEq, Repr

/-- The transport client (external collaborator): sending to an entity
either yields a result carrying a message id or fails with an error whose
message is the `List Char` payload. -/
def Client : Type := Entity → String → Except (List Char) Nat

/-- The entity-selection chain at the top of `Messenger.sendMessage`:
`target.type === 'chat' && target.id` picks the id, else a truthy
`target.username` picks the username, else
`throw new Error('Invalid target configuration')`. -/
def resolveEntity (target : Target) : Except (List Char) Entity :=
  if target.type == some "chat" && truthyId target.id then
    .ok (.chatId (target.id.getD 0))
  else if truthyUsername target.username then
    .ok (.uname (target.username.getD ""))
  else
    .error "Invalid target configuration".toList

/-- The per-target dispatch outcome (`return { ... }` of
`Messenger.sendMessage`). -/
structure SendResult where
  success : Bool
  target : Target
  messageId : Option Nat
  error : Option (List Char)
  waitTime : Option Nat
  timestamp : String
  deriving DecidableEq, Repr

/-- JavaScript `haystack.includes(needle)`: `needle` occurs as a contiguous
substring of `haystack`. -/
def containsSeq (needle : List Char) : List Char → Bool
  | [] => needle.isEmpty
  | l@(_ :: rest) => needle.isPrefixOf l || containsSeq needle rest

/-- The maximal leading run of decimal digits (the greedy `(\d+)` capture
starting at the current position). -/
def leadingDigits : List Char → List Char
  | [] => []
  | c :: rest => if c.isDigit then c :: leadingDigits rest else []

/-- The regex search `/FLOOD_WAIT_(\d+)/`: the first position at which
`FLOOD_WAIT_` followed by at least one digit matches yields the greedy digit
capture; no such position yields `none`. -/
def findFloodWait : List Char → Option (List Char)
  | [] => none
  | l@(_ :: rest) =>
    if ("FLOOD_WAIT_".toList).isPrefixOf l then
      let ds := leadingDigits (l.drop 11)
      if ds ≠ [] then some ds else findFloodWait rest
    else
      findFloodWait rest

/-- `Messenger._extractFloodWaitTime`: parses the wait duration from the
flood-wait pattern, defaulting to 60 seconds when it cannot be parsed. -/
def extractFloodWaitTime (errorMessage : List Char) : Nat :=
  match findFloodWait errorMessage with
  | some ds => charsToNat ds
  | none => 60

/-- The `catch` block of `Messenger.sendMessage`: a message containing
`FLOOD_WAIT` is classified as rate limiting (with the extracted wait time);
any other error is recorded verbatim.  Either way a result object is
returned, never a raised exception. -/
def handleSendError (target : Target) (now : String) (emsg : List Char) : SendResult :=
  if containsSeq "FLOOD_WAIT".toList emsg then
    { success := false, target := target, messageId := none,
      error := some "RATE_LIMITED".toList,
      waitTime := some (extractFloodWaitTime emsg), timestamp := now }
  else
    { success := false, target := target, messageId := none,
      error := some emsg, waitTime := none, timestamp := now }

/-- `Messenger.sendMessage`: resolves the entity, attempts the send, and
returns a success record or the `catch`-classified failure record; `now` is
the wall-clock reading used for the `timestamp` field. -/
def sendMessage (client : Client) (target : Target) (message : String)
    (now : String) : SendResult :=
  match resolveEntity target with
  | .error emsg => handleSendError target now emsg
  | .ok entity =>
    match client entity message with
    | .ok rid =>
      { success := true, target := target, messageId := some rid,
        error := none, waitTime := none, timestamp := now }
    | .error emsg => handleSendError target now emsg

/-- The pause taken after one result is pushed in
`Messenger.sendMessagesToAllTargets`, in milliseconds: the rate-limit wait
(`waitTime*1000 + 1000`) when the result is `RATE_LIMITED` with a truthy
`waitTime`, and the ordinary inter-send delay otherwise. -/
def pauseAfter (result : SendResult) (delayBetweenMessages : Nat) : Nat :=
  if result.error == some "RATE_LIMITED".toList
      && (match result.waitTime with | none => false | some w => w != 0) then
    (result.waitTime.getD 0) * 1000 + 1000
  else
    delayBetweenMessages

/-- The `for (const target of targets)` loop of
`Messenger.sendMessagesToAllTargets`, started at position `i` of the input
list: returns the accumulated results and, for each target, the pause taken
after its send; `clock` gives the wall-clock reading at each position. -/
def sendLoop (client : Client) (message : String) (delayBetweenMessages : Nat)
    (clock : Nat → String) : List Target → Nat → List SendResult × List Nat
  | [], _ => ([], [])
  | target :: rest, i =>
    let result := sendMessage client target message (clock i)
    let later := sendLoop client message delayBetweenMessages clock rest (i + 1)
    (result :: later.1, pauseAfter result delayBetweenMessages :: later.2)

/-- `Messenger.sendMessagesToAllTargets`: sends to every target in input
order, one at a time, pausing between sends. -/
def sendMessagesToAllTargets (client : Client) (targets : List Target)
    (message : String) (delayBetweenMessages : Nat) (clock : Nat → String) :
    List SendResult × List Nat :=
  sendLoop client message delayBetweenMessages clock targets 0

/-! ## Spec-side definitions and concrete fixtures -/

/-- The specification's strict zero-padded `HH:MM` (00:00–23:59) format
check: exactly two hour digits (`00`–`23`) and two minute digits
(`00`–`59`).  Stated from the spec's words, to be compared with the
source's `matchesTimeRegex`. -/
def strictHHMM : List Char → Bool
  | [h1, h2, ':', m1, m2] =>
      (((h1 == '0' || h1 == '1') && h2.isDigit) ||
        (h1 == '2' && (decide ('0' ≤ h2) && decide (h2 ≤ '3')))) &&
      (decide ('0' ≤ m1) && decide (m1 ≤ '5')) && m2.isDigit
  | _ => false

/-- Value-level characterization of the strings the source regex accepts:
the hour is a single digit, or two digits whose numeric value is at most 23;
the minute is exactly two digits whose numeric value is at most 59. -/
def looseTimeOK : List Char → Bool
  | [h1, ':', m1, m2] =>
      h1.isDigit && m1.isDigit && m2.isDigit && decide (charsToNat [m1, m2] ≤ 59)
  | [h1, h2, ':', m1, m2] =>
      h1.isDigit && h2.isDigit && decide (charsToNat [h1, h2] ≤ 23) &&
      (m1.isDigit && m2.isDigit && decide (charsToNat [m1, m2] ≤ 59))
  | _ => false

/-- The canonical zero-padded rendering of a number below 100 as two decimal
digit characters. -/
def pad2 (n : Nat) : List Char :=
  if n < 10 then ['0', Nat.digitChar n]
  else [Nat.digitChar (n / 10), Nat.digitChar (n % 10)]

/-- A transport client whose sends always succeed with message id 1. -/
def okClient : Client := fun _ _ => .ok 1

/-- A transport client that always reports a flood wait of 5 seconds. -/
def floodClient5 : Client := fun _ _ => .error "FLOOD_WAIT_5".toList

/-- A transport client that always reports a flood wait of 0 seconds. -/
def floodClient0 : Client := fun _ _ => .error "FLOOD_WAIT_0".toList

/-- A constant wall clock. -/
def clock0 : Nat → String := fun _ => "2024-01-01T00:00:00.000Z"

/-- A well-formed chat target. -/
def chatT : Target := ⟨some "chat", some 1, none⟩

/-- A target that is neither a chat with a populated id nor carries a
populated username. -/
def badT : Target := ⟨some "user", none, some ""⟩

/-! ## Character-level bridging lemmas -/

theorem char_le_iff_toNat (a b : Char) : a ≤ b ↔ a.toNat ≤ b.toNat := by
  rw [Char.le_def, UInt32.le_def, BitVec.le_def]; exact Iff.rfl

theorem char_eq_iff_toNat (a b : Char) : a = b ↔ a.toNat = b.toNat := by
  rw [Char.ext_iff, UInt32.ext_iff]; exact Iff.rfl

theorem char_isDigit_iff (c : Char) : c.isDigit = true ↔ 48 ≤ c.toNat ∧ c.toNat ≤ 57 := by
  show (decide ('0' ≤ c) && decide (c ≤ '9')) = true ↔ _
  simp [char_le_iff_toNat]

theorem toNat_char_0 : '0'.toNat = 48 := rfl

theorem toNat_char_1 : '1'.toNat = 49 := rfl

theorem toNat_char_2 : '2'.toNat = 50 := rfl

theorem toNat_char_3 : '3'.toNat = 51 := rfl

theorem toNat_char_5 : '5'.toNat = 53 := rfl

theorem toNat_char_9 : '9'.toNat = 57 := rfl

/-! ## Claim theorems: Trigger Scheduler -/

/-- C5: for every integer value and unit, `intervalToCron` returns exactly
`*/v * * * *` for minutes `1..59`, `0 */v * * *` for hours `1..23` and
`0 0 */v * *` for days `1..30`, and fails whenever the value is outside the
unit's range or the unit is not one of minutes/hours/days. -/
theorem intervalToCron_ranges :
    (∀ v : Int, 1 ≤ v → v ≤ 59 →
        intervalToCron v "minutes" = .ok ("*/" ++ toString v ++ " * * * *")) ∧
    (∀ v : Int, v < 1 ∨ 59 < v → (intervalToCron v "minutes").isOk = false) ∧
    (∀ v : Int, 1 ≤ v → v ≤ 23 →
        intervalToCron v "hours" = .ok ("0 */" ++ toString v ++ " * * *")) ∧
    (∀ v : Int, v < 1 ∨ 23 < v → (intervalToCron v "hours").isOk = false) ∧
    (∀ v : Int, 1 ≤ v → v ≤ 30 →
        intervalToCron v "days" = .ok ("0 0 */" ++ toString v ++ " * *")) ∧
    (∀ v : Int, v < 1 ∨ 30 < v → (intervalToCron v "days").isOk = false) ∧
    (∀ (v : Int) (u : String), u ≠ "minutes" → u ≠ "hours" → u ≠ "days" →
        (intervalToCron v u).isOk = false) := by
  refine ⟨?_, ?_, ?_, ?_, ?_, ?_, ?_⟩
  · intro v h1 h2
    unfold intervalToCron
    rw [if_pos rfl, if_neg (by omega)]
  · intro v h
    unfold intervalToCron
    rw [if_pos rfl, if_pos (by omega)]
    rfl
  · intro v h1 h2
    unfold intervalToCron
    rw [if_neg (by decide), if_pos rfl, if_neg (by omega)]
  · intro v h
    unfold intervalToCron
    rw [if_neg (by decide), if_pos rfl, if_pos (by omega)]
    rfl
  · intro v h1 h2
    unfold intervalToCron
    rw [if_neg (by decide), if_neg (by decide), if_pos rfl, if_neg (by omega)]
  · intro v h
    unfold intervalToCron
    rw [if_neg (by decide), if_neg (by decide), if_pos rfl, if_pos (by omega)]
    rfl
  · intro v u hm hh hd
    unfold intervalToCron
    rw [if_neg hm, if_neg hh, if_neg hd]
    rfl

/-- Witness for `intervalToCron_ranges` at concrete inputs. -/
theorem intervalToCron_ranges_witness :
    intervalToCron 5 "minutes" = .ok ("*/" ++ toString (5 : Int) ++ " * * * *") ∧
    (intervalToCron 0 "minutes").isOk = false ∧
    (intervalToCron 60 "minutes").isOk = false ∧
    intervalToCron 7 "hours" = .ok ("0 */" ++ toString (7 : Int) ++ " * * *") ∧
    (intervalToCron 24 "hours").isOk = false ∧
    intervalToCron 3 "days" = .ok ("0 0 */" ++ toString (3 : Int) ++ " * *") ∧
    (intervalToCron 31 "days").isOk = false ∧
    (intervalToCron 5 "weeks").isOk = false :=
  ⟨intervalToCron_ranges.1 5 (by omega) (by omega),
   intervalToCron_ranges.2.1 0 (by omega),
   intervalToCron_ranges.2.1 60 (by omega),
   intervalToCron_ranges.2.2.1 7 (by omega) (by omega),
   intervalToCron_ranges.2.2.2.1 24 (by omega),
   intervalToCron_ranges.2.2.2.2.1 3 (by omega) (by omega),
   intervalToCron_ranges.2.2.2.2.2.1 31 (by omega),
   intervalToCron_ranges.2.2.2.2.2.2 5 "weeks" (by decide) (by decide) (by decide)⟩

/-- C7: when the task supplied to `scheduleTask` raises during a scheduled
fire, the error is caught and logged, the firing propagates no exception,
the scheduler state (and with it the firing trigger) is untouched, and a
subsequent fire behaves exactly as it would from the same state. -/
theorem fireTrigger_error_swallowed (s : SchedulerState)
    (task : Unit → Except String Unit) (e : String)
    (h : task () = .error e) :
    fireTrigger s task = (s, some ("Error in scheduled task: " ++ e)) ∧
    (∀ task2 : Unit → Except String Unit,
        fireTrigger (fireTrigger s task).1 task2 = fireTrigger s task2) := by
  constructor
  · unfold fireTrigger
    rw [h]
  · intro task2
    unfold fireTrigger
    rw [h]

/-- Witness for `fireTrigger_error_swallowed` with a concretely failing
task. -/
theorem fireTrigger_error_swallowed_witness :
    fireTrigger ⟨[⟨"0 9 * * *"⟩]⟩ (fun _ => .error "boom")
        = (⟨[⟨"0 9 * * *"⟩]⟩, some ("Error in scheduled task: " ++ "boom")) ∧
    (∀ task2 : Unit → Except String Unit,
        fireTrigger (fireTrigger ⟨[⟨"0 9 * * *"⟩]⟩ (fun _ => .error "boom")).1 task2
          = fireTrigger ⟨[⟨"0 9 * * *"⟩]⟩ task2) :=
  fireTrigger_error_swallowed ⟨[⟨"0 9 * * *"⟩]⟩ (fun _ => .error "boom") "boom" rfl

/-- C8: `stopAllTasks` cancels exactly the currently owned triggers (in
order) and leaves the owned set empty, and a second consecutive call cancels
nothing and still leaves zero active triggers. -/
theorem stopAllTasks_idempotent (s : SchedulerState) :
    (stopAllTasks s).1 = s.scheduledTasks ∧
    (stopAllTasks s).2.scheduledTasks = [] ∧
    stopAllTasks (stopAllTasks s).2 = ([], ⟨[]⟩) :=
  ⟨rfl, rfl, rfl⟩

/-- The scheduling loop of `scheduleMultipleDailyTimes` stops at the first
invalid time, propagating its error while keeping one freshly registered
trigger per preceding valid time. -/
theorem scheduleDailyTimesLoop_first_invalid (pre : List (List Char))
    (s : SchedulerState) (bad : List Char) (post : List (List Char)) (e : String)
    (hpre : ∀ t ∈ pre, (dailyTimeToCron t).isOk = true)
    (hbad : dailyTimeToCron bad = .error e) :
    (scheduleDailyTimesLoop s (pre ++ bad :: post)).2 = .error e ∧
    (scheduleDailyTimesLoop s (pre ++ bad :: post)).1.scheduledTasks.length
      = s.scheduledTasks.length + pre.length := by
  induction pre generalizing s with
  | nil =>
    simp [scheduleDailyTimesLoop, hbad]
  | cons t pre ih =>
    have ht : (dailyTimeToCron t).isOk = true := hpre t (List.mem_cons_self t pre)
    obtain ⟨c, hc⟩ : ∃ c, dailyTimeToCron t = .ok c := by
      cases hdc : dailyTimeToCron t with
      | ok c => exact ⟨c, rfl⟩
      | error e' => rw [hdc] at ht; simp [Except.isOk, Except.toBool] at ht
    have hpre' : ∀ u ∈ pre, (dailyTimeToCron u).isOk = true :=
      fun u hu => hpre u (List.mem_cons_of_mem t hu)
    have step := ih ⟨s.scheduledTasks ++ [⟨c⟩]⟩ hpre'
    rcases hres : scheduleDailyTimesLoop ⟨s.scheduledTasks ++ [⟨c⟩]⟩ (pre ++ bad :: post)
      with ⟨s'', r⟩
    rw [hres] at step
    simp only [List.cons_append, scheduleDailyTimesLoop, hc, scheduleTask, cronValidate,
      if_true, List.append_eq, hres]
    rcases step with ⟨h2, hlen⟩
    cases r with
    | ok trigs => exact absurd h2 (by simp)
    | error e'' =>
      obtain rfl : e'' = e := by injection h2
      refine ⟨rfl, ?_⟩
      simp only [List.length_append, List.length_cons] at hlen ⊢
      simp at hlen
      omega

/-- C1 (amended): `scheduleMultipleDailyTimes` validates each time
immediately before registering its trigger, so on the first invalid time
the call fails with that time's error while exactly one trigger per
preceding valid time has already been registered and remains owned. -/
theorem scheduleMultipleDailyTimes_first_invalid (pre : List (List Char))
    (s : SchedulerState) (bad : List Char) (post : List (List Char)) (e : String)
    (hpre : ∀ t ∈ pre, (dailyTimeToCron t).isOk = true)
    (hbad : dailyTimeToCron bad = .error e) :
    (scheduleMultipleDailyTimes s (pre ++ bad :: post)).2 = .error e ∧
    (scheduleMultipleDailyTimes s (pre ++ bad :: post)).1.scheduledTasks.length
      = s.scheduledTasks.length + pre.length := by
  have hne : pre ++ bad :: post ≠ [] := by cases pre <;> simp
  unfold scheduleMultipleDailyTimes
  rw [if_neg hne]
  exact scheduleDailyTimesLoop_first_invalid pre s bad post e hpre hbad

/-- Witness for `scheduleMultipleDailyTimes_first_invalid`:
scheduling `["09:00", "25:00"]` from an empty scheduler fails with the
invalid-time error and leaves exactly one registered trigger. -/
theorem scheduleMultipleDailyTimes_first_invalid_witness :
    (scheduleMultipleDailyTimes ⟨[]⟩ (["09:00".toList] ++ "25:00".toList :: [])).2
        = .error "Invalid time format. Must be in 24-hour format (HH:MM)." ∧
    (scheduleMultipleDailyTimes ⟨[]⟩
          (["09:00".toList] ++ "25:00".toList :: [])).1.scheduledTasks.length
        = (SchedulerState.mk []).scheduledTasks.length + ["09:00".toList].length :=
  scheduleMultipleDailyTimes_first_invalid ["09:00".toList] ⟨[]⟩ "25:00".toList []
    "Invalid time format. Must be in 24-hour format (HH:MM)." (by decide) (by decide)

/-- C1 (counterexample to the claim as stated): `scheduleDailyTimes` on
`["09:00", "25:00"]` does fail, but one trigger — the one for `09:00` — has
already been registered, not zero. -/
theorem scheduleMultipleDailyTimes_not_all_or_nothing_cex :
    (scheduleMultipleDailyTimes ⟨[]⟩ ["09:00".toList, "25:00".toList]).2.isOk = false ∧
    (scheduleMultipleDailyTimes ⟨[]⟩ ["09:00".toList, "25:00".toList]).1.scheduledTasks
        = [⟨"0 9 * * *"⟩] ∧
    ¬ (scheduleMultipleDailyTimes ⟨[]⟩
          ["09:00".toList, "25:00".toList]).1.scheduledTasks.length = 0 := by
  decide

/-- The source regex accepts a time string exactly when its hour part is one
digit, or two digits with value at most 23, and its minute part is exactly
two digits with value at most 59. -/
theorem matchesTimeRegex_eq_loose (t : List Char) :
    matchesTimeRegex t = looseTimeOK t := by
  unfold matchesTimeRegex looseTimeOK
  split
  · rw [Bool.eq_iff_iff]
    simp only [Bool.and_eq_true, Bool.or_eq_true, beq_iff_eq, decide_eq_true_eq,
      char_isDigit_iff, char_le_iff_toNat, char_eq_iff_toNat, charsToNat, List.foldl,
      toNat_char_0, toNat_char_1, toNat_char_2, toNat_char_3, toNat_char_5, toNat_char_9]
    omega
  · rw [Bool.eq_iff_iff]
    simp only [Bool.and_eq_true, Bool.or_eq_true, beq_iff_eq, decide_eq_true_eq,
      char_isDigit_iff, char_le_iff_toNat, char_eq_iff_toNat, charsToNat, List.foldl,
      toNat_char_0, toNat_char_1, toNat_char_2, toNat_char_3, toNat_char_5, toNat_char_9]
    omega
  · rfl

/-- `dailyTimeToCron` accepts exactly the strings the regex matches. -/
theorem dailyTimeToCron_isOk_eq (t : List Char) :
    (dailyTimeToCron t).isOk = matchesTimeRegex t := by
  unfold dailyTimeToCron
  split
  · next h => rw [h]; rfl
  · next h =>
    rw [Bool.not_eq_true] at h
    rw [h]; rfl

/-- Every strictly zero-padded `HH:MM` string also matches the source
regex. -/
theorem strictHHMM_le_matches (t : List Char) (h : strictHHMM t = true) :
    matchesTimeRegex t = true := by
  unfold strictHHMM at h
  split at h
  · simp only [matchesTimeRegex]
    exact h
  · exact absurd h (by simp)

/-- C4 (amended): `dailyTimeToCron` accepts exactly the time strings whose
hour is one digit, or two digits with value at most 23, and whose minute is
exactly two digits with value at most 59 — every strictly zero-padded
`HH:MM` (00:00–23:59) string is accepted and converts to the cron
expression with numeric minute then hour, but acceptance is not limited to
zero-padded hours: `9:05` is also accepted, while `9:5` and `24:00` still
fail. -/
theorem dailyTimeToCron_loose_accept :
    (∀ t : List Char, (dailyTimeToCron t).isOk = looseTimeOK t) ∧
    (∀ t : List Char, strictHHMM t = true → (dailyTimeToCron t).isOk = true) ∧
    (∀ h : Fin 24, ∀ m : Fin 60,
        dailyTimeToCron (pad2 h.val ++ ':' :: pad2 m.val)
          = .ok (toString m.val ++ " " ++ toString h.val ++ " * * *")) ∧
    dailyTimeToCron "09:05".toList = .ok "5 9 * * *" ∧
    dailyTimeToCron "9:05".toList = .ok "5 9 * * *" ∧
    dailyTimeToCron "9:5".toList
      = .error "Invalid time format. Must be in 24-hour format (HH:MM)." ∧
    dailyTimeToCron "24:00".toList
      = .error "Invalid time format. Must be in 24-hour format (HH:MM)." := by
  refine ⟨?_, ?_, by decide, by decide, by decide, by decide, by decide⟩
  · intro t
    exact (dailyTimeToCron_isOk_eq t).trans (matchesTimeRegex_eq_loose t)
  · intro t h
    rw [dailyTimeToCron_isOk_eq]
    exact strictHHMM_le_matches t h

/-- Witness for `dailyTimeToCron_loose_accept`, discharging the
strictly-zero-padded hypothesis at `23:59`. -/
theorem dailyTimeToCron_loose_accept_witness :
    (dailyTimeToCron "23:59".toList).isOk = looseTimeOK "23:59".toList ∧
    (dailyTimeToCron "23:59".toList).isOk = true :=
  ⟨dailyTimeToCron_loose_accept.1 "23:59".toList,
   dailyTimeToCron_loose_accept.2.1 "23:59".toList (by decide)⟩

/-- C4 (counterexample to the claim as stated): `9:05` fails the strict
zero-padded `HH:MM` check yet `dailyTimeToCron` accepts it, because the
regex makes the leading hour digit optional. -/
theorem dailyTimeToCron_strict_cex :
    strictHHMM "9:05".toList = false ∧
    dailyTimeToCron "9:05".toList = .ok "5 9 * * *" := by
  decide

/-! ## Claim theorems: Dispatch Engine -/

/-- C2 (amended): `sendMessagesToAllTargets` performs no structural
validation of `targets`: an empty list is not an error — the call returns
normally with an empty outcome sequence and no send attempted. -/
theorem sendMessagesToAllTargets_empty_ok (client : Client) (message : String)
    (delay : Nat) (clock : Nat → String) :
    sendMessagesToAllTargets client [] message delay clock = ([], []) := rfl

/-- C2 (counterexample to the claim as stated): calling the dispatcher with
an empty targets list does not fail — it returns the empty outcome
sequence. -/
theorem sendMessagesToAllTargets_empty_cex :
    sendMessagesToAllTargets okClient [] "hello" 2000 clock0 = ([], []) := rfl

theorem sendLoop_length (client : Client) (message : String) (delay : Nat)
    (clock : Nat → String) (targets : List Target) (b : Nat) :
    (sendLoop client message delay clock targets b).1.length = targets.length ∧
    (sendLoop client message delay clock targets b).2.length = targets.length := by
  induction targets generalizing b with
  | nil => simp [sendLoop]
  | cons t rest ih => simp [sendLoop, ih (b + 1)]

theorem sendLoop_get (client : Client) (message : String) (delay : Nat)
    (clock : Nat → String) (targets : List Target) (b i : Nat) :
    (sendLoop client message delay clock targets b).1.get? i
      = (targets.get? i).map (fun t => sendMessage client t message (clock (b + i))) := by
  induction targets generalizing b i with
  | nil => simp [sendLoop]
  | cons t rest ih =>
    cases i with
    | zero => simp [sendLoop]
    | succ j =>
      have harith : b + (j + 1) = (b + 1) + j := by omega
      simp only [sendLoop, List.get?_cons_succ, harith]
      exact ih (b + 1) j

/-- C6: for every list of targets (and any client behaviour, including
per-target failures, which the embedding returns as result records rather
than exceptions), the dispatcher produces one outcome per target, in input
order: outcome `i` is exactly the send outcome of target `i`. -/
theorem sendMessagesToAllTargets_order (client : Client) (targets : List Target)
    (message : String) (delay : Nat) (clock : Nat → String) :
    (sendMessagesToAllTargets client targets message delay clock).1.length
        = targets.length ∧
    (∀ i : Nat, (sendMessagesToAllTargets client targets message delay clock).1.get? i
        = (targets.get? i).map (fun t => sendMessage client t message (clock i))) := by
  constructor
  · exact (sendLoop_length client message delay clock targets 0).1
  · intro i
    have h := sendLoop_get client message delay clock targets 0 i
    simpa [sendMessagesToAllTargets] using h

/-- Shared helper: when the head target's send fails with a message
containing `FLOOD_WAIT`, the head outcome is the rate-limited record and
the pause before the next target is `waitTime*1000 + 1000` for a nonzero
parsed wait, but the ordinary inter-send delay when the parsed wait is
zero. -/
theorem rateLimited_head (client : Client) (t : Target) (rest : List Target)
    (message : String) (delay : Nat) (clock : Nat → String)
    (ent : Entity) (emsg : List Char)
    (hent : resolveEntity t = .ok ent)
    (hsend : client ent message = .error emsg)
    (hfw : containsSeq "FLOOD_WAIT".toList emsg = true) :
    (sendMessagesToAllTargets client (t :: rest) message delay clock).1.head?
      = some { success := false, target := t, messageId := none,
               error := some "RATE_LIMITED".toList,
               waitTime := some (extractFloodWaitTime emsg), timestamp := clock 0 } ∧
    (sendMessagesToAllTargets client (t :: rest) message delay clock).2.head?
      = some (if extractFloodWaitTime emsg = 0 then delay
              else extractFloodWaitTime emsg * 1000 + 1000) := by
  have hsm : sendMessage client t message (clock 0)
      = { success := false, target := t, messageId := none,
          error := some "RATE_LIMITED".toList,
          waitTime := some (extractFloodWaitTime emsg), timestamp := clock 0 } := by
    unfold sendMessage
    simp only [hent]
    simp only [hsend]
    unfold handleSendError
    rw [if_pos hfw]
  constructor
  · simp [sendMessagesToAllTargets, sendLoop, hsm]
  · simp only [sendMessagesToAllTargets, sendLoop, hsm, List.head?]
    simp only [pauseAfter]
    by_cases hz : extractFloodWaitTime emsg = 0
    · simp [hz]
    · simp [hz]

/-- C3 (amended): a send failing with a rate-limit condition records
`success = false`, the `RATE_LIMITED` error kind and the wait parsed from
the `FLOOD_WAIT_<seconds>` pattern (60 when unparsable), and the sequence
then pauses `waitSeconds + 1` seconds instead of the inter-send delay —
except when the parsed wait is 0, in which case the ordinary inter-send
delay is used. -/
theorem rateLimited_pause_amended (client : Client) (t : Target)
    (rest : List Target) (message : String) (delay : Nat) (clock : Nat → String)
    (ent : Entity) (emsg : List Char)
    (hent : resolveEntity t = .ok ent)
    (hsend : client ent message = .error emsg)
    (hfw : containsSeq "FLOOD_WAIT".toList emsg = true) :
    (sendMessagesToAllTargets client (t :: rest) message delay clock).1.head?
      = some { success := false, target := t, messageId := none,
               error := some "RATE_LIMITED".toList,
               waitTime := some (extractFloodWaitTime emsg), timestamp := clock 0 } ∧
    (sendMessagesToAllTargets client (t :: rest) message delay clock).2.head?
      = some (if extractFloodWaitTime emsg = 0 then delay
              else extractFloodWaitTime emsg * 1000 + 1000) :=
  rateLimited_head client t rest message delay clock ent emsg hent hsend hfw

/-- Witness for `rateLimited_pause_amended` with a transport reporting
`FLOOD_WAIT_5`. -/
theorem rateLimited_pause_amended_witness :
    (sendMessagesToAllTargets floodClient5 [chatT] "hi" 2000 clock0).1.head?
      = some { success := false, target := chatT, messageId := none,
               error := some "RATE_LIMITED".toList,
               waitTime := some (extractFloodWaitTime "FLOOD_WAIT_5".toList),
               timestamp := clock0 0 } ∧
    (sendMessagesToAllTargets floodClient5 [chatT] "hi" 2000 clock0).2.head?
      = some (if extractFloodWaitTime "FLOOD_WAIT_5".toList = 0 then 2000
              else extractFloodWaitTime "FLOOD_WAIT_5".toList * 1000 + 1000) :=
  rateLimited_pause_amended floodClient5 chatT [] "hi" 2000 clock0 (.chatId 1)
    "FLOOD_WAIT_5".toList rfl rfl (by decide)

/-- C3 (counterexample to the claim as stated): a transport reporting
`FLOOD_WAIT_0` produces the rate-limited outcome with `waitTime = 0`, yet
the sequence pauses for the ordinary 2000 ms inter-send delay, not the
claimed `waitSeconds + 1` seconds (1000 ms). -/
theorem rateLimited_zero_wait_cex :
    ((sendMessagesToAllTargets floodClient0 [chatT] "hi" 2000 clock0).1.map
        (fun r => (r.success, r.error, r.waitTime)))
      = [(false, some "RATE_LIMITED".toList, some 0)] ∧
    (sendMessagesToAllTargets floodClient0 [chatT] "hi" 2000 clock0).2 = [2000] ∧
    (2000 : Nat) ≠ 0 * 1000 + 1000 := by
  decide

/-- C9: a rate-limited send whose parsed wait duration is 0 records the
rate-limit error with `waitTime = 0`, but the sequence-wide
`waitSeconds + 1` pause is skipped: the ordinary inter-send delay is used
before the next target, because the pause branch requires a truthy
`waitTime`. -/
theorem floodWaitZero_normal_delay (client : Client) (t : Target)
    (rest : List Target) (message : String) (delay : Nat) (clock : Nat → String)
    (ent : Entity) (emsg : List Char)
    (hent : resolveEntity t = .ok ent)
    (hsend : client ent message = .error emsg)
    (hfw : containsSeq "FLOOD_WAIT".toList emsg = true)
    (hzero : extractFloodWaitTime emsg = 0) :
    (sendMessagesToAllTargets client (t :: rest) message delay clock).1.head?
      = some { success := false, target := t, messageId := none,
               error := some "RATE_LIMITED".toList, waitTime := some 0,
               timestamp := clock 0 } ∧
    (sendMessagesToAllTargets client (t :: rest) message delay clock).2.head?
      = some delay := by
  have h := rateLimited_head client t rest message delay clock ent emsg hent hsend hfw
  rw [hzero] at h
  simpa using h

/-- Witness for `floodWaitZero_normal_delay` with a transport reporting
`FLOOD_WAIT_0`. -/
theorem floodWaitZero_normal_delay_witness :
    (sendMessagesToAllTargets floodClient0 [chatT] "bye" 3000 clock0).1.head?
      = some { success := false, target := chatT, messageId := none,
               error := some "RATE_LIMITED".toList, waitTime := some 0,
               timestamp := clock0 0 } ∧
    (sendMessagesToAllTargets floodClient0 [chatT] "bye" 3000 clock0).2.head?
      = some 3000 :=
  floodWaitZero_normal_delay floodClient0 chatT [] "bye" 3000 clock0 (.chatId 1)
    "FLOOD_WAIT_0".toList rfl rfl (by decide) (by decide)

/-- C10: a target that is neither a chat with a populated id nor carries a
populated username does not make `sendMessage` raise: the internally thrown
`Invalid target configuration` error is caught and returned as a failed
outcome carrying that message and a timestamp, and a batch over a list
headed by such a target continues with the remaining targets. -/
theorem invalidTarget_caught (client : Client) (t : Target) (rest : List Target)
    (message : String) (now : String) (delay : Nat) (clock : Nat → String)
    (h1 : (t.type == some "chat" && truthyId t.id) = false)
    (h2 : truthyUsername t.username = false) :
    sendMessage client t message now
      = { success := false, target := t, messageId := none,
          error := some "Invalid target configuration".toList,
          waitTime := none, timestamp := now } ∧
    (sendMessagesToAllTargets client (t :: rest) message delay clock).1
      = sendMessage client t message (clock 0)
          :: (sendLoop client message delay clock rest 1).1 := by
  have hres : resolveEntity t = .error "Invalid target configuration".toList := by
    unfold resolveEntity
    rw [h1, h2]
    simp
  constructor
  · unfold sendMessage
    simp only [hres]
    unfold handleSendError
    rw [if_neg (show
      ¬(containsSeq "FLOOD_WAIT".toList "Invalid target configuration".toList = true)
      by decide)]
  · rfl

/-- Witness for `invalidTarget_caught` at a target whose `type` is not
`chat` and whose `username` is present but empty (hence falsy). -/
theorem invalidTarget_caught_witness :
    sendMessage okClient badT "hi" "ts"
      = { success := false, target := badT, messageId := none,
          error := some "Invalid target configuration".toList,
          waitTime := none, timestamp := "ts" } ∧
    (sendMessagesToAllTargets okClient (badT :: [chatT]) "hi" 2000 clock0).1
      = sendMessage okClient badT "hi" (clock0 0)
          :: (sendLoop okClient "hi" 2000 clock0 [chatT] 1).1 :=
  invalidTarget_caught okClient badT [chatT] "hi" "ts" 2000 clock0
    (by decide) (by decide)

end TgBot
